import Mathlib

/-
  Verification of the PTL (Python Template Language) core of Quixote:
  the HTML-escaping value type (`htmltext`), the escape function
  (`htmlescape`), and the statement-capture semantics of `[plain]` and
  `[html]` template functions.

  The repository ships the PTL package documentation and interface in
  `quixote/ptl/__init__.py`; the executable implementation of the escape
  function, the `htmltext` operators and the statement-capture transform
  is not part of the provided sources, so those components are modelled
  here from the specification, faithful to its words.
-/

namespace PTL

/-- Modelled from the spec: `htmltext` (§4.2 Escaping Value Type, and the
PTL documentation), "a string that's already been HTML-escaped and can be
safely sent to the client".  The implementation (pure-Python and C
versions of the `htmltext` class) is not among the provided sources.
`raw` is the underlying already-escaped character content. -/
structure htmltext where
  raw : String
deriving DecidableEq, Repr

/-- Modelled from the spec: the per-character substitution of the Escape
Function (§4.1): `&` → `&amp;`, `<` → `&lt;`, `>` → `&gt;`, `"` → `&quot;`,
every other character is kept unchanged. -/
def escapeChar (c : Char) : String :=
  if c = '&' then "&amp;"
  else if c = '<' then "&lt;"
  else if c = '>' then "&gt;"
  else if c = '"' then "&quot;"
  else String.singleton c

/-- Character-list version of the escape transform: substitute each
character in order and concatenate. -/
def escapeList : List Char → String
  | [] => ""
  | c :: cs => escapeChar c ++ escapeList cs

/-- Modelled from the spec: the Escape Function's action on Plain Text
(§4.1): every markup-special character is replaced by its entity,
character order and all other characters are preserved. -/
def escapeString (s : String) : String :=
  escapeList s.data

/-- A textual operand: either Plain Text (an ordinary string) or Escaped
Text (an `htmltext`).  This is the tagged two-variant union the spec's
design notes (§9) prescribe for the combination operators. -/
inductive TextVal where
  | plain : String → TextVal
  | escaped : htmltext → TextVal
deriving DecidableEq, Repr

/-- Modelled from the spec: `htmlescape` on a textual argument (§4.1 and
the PTL documentation): escape a Plain Text string into `htmltext`;
return an `htmltext` argument unchanged (identity). -/
def htmlescape : TextVal → htmltext
  | .plain s => ⟨escapeString s⟩
  | .escaped h => h

/-- Error condition of the Escape Function (§7): `InvalidInput` when the
argument cannot be treated as text. -/
inductive EscapeError where
  | invalidInput
deriving DecidableEq, Repr

/-- An arbitrary runtime argument handed to the Escape Function: a
string, an `htmltext`, or a non-textual value. -/
inductive EscArg where
  | str : String → EscArg
  | html : htmltext → EscArg
  | nontext : EscArg
deriving DecidableEq, Repr

/-- Modelled from the spec: the fallible Escape Function (§4.1): succeeds
on strings (escaping them) and on `htmltext` (identity), and fails with
`InvalidInput` on a value that is neither. -/
def htmlescapeE : EscArg → Except EscapeError htmltext
  | .str s => .ok ⟨escapeString s⟩
  | .html h => .ok h
  | .nontext => .error .invalidInput

/-- Modelled from the spec: concatenation of textual operands (§4.2):
if either operand is Escaped Text, the Plain Text operand (if any) is
escaped and the raw contents are concatenated, yielding Escaped Text;
two Plain Text operands concatenate as Plain Text. -/
def addText : TextVal → TextVal → TextVal
  | .escaped a, .escaped b => .escaped ⟨a.raw ++ b.raw⟩
  | .escaped a, .plain s => .escaped ⟨a.raw ++ escapeString s⟩
  | .plain s, .escaped b => .escaped ⟨escapeString s ++ b.raw⟩
  | .plain s, .plain t => .plain (s ++ t)

/-- Modelled from the spec: positional `%s` substitution into an Escaped
Text template (§4.2): each argument is escaped (a no-op on Escaped Text)
and inserted at the matching placeholder; placeholder/argument count
mismatch is an error (`none`). -/
def formatChars : List Char → List TextVal → Option String
  | [], [] => some ""
  | [], _ :: _ => none
  | '%' :: 's' :: rest, a :: args =>
      (formatChars rest args).map (fun r => (htmlescape a).raw ++ r)
  | '%' :: 's' :: _, [] => none
  | c :: rest, args =>
      (formatChars rest args).map (fun r => String.singleton c ++ r)

/-- Modelled from the spec: the `%` formatting operator of `htmltext`
(§4.2): substitute the escaped arguments into the template's raw content;
the result is Escaped Text. -/
def modText (t : htmltext) (args : List TextVal) : Option htmltext :=
  (formatChars t.raw.data args).map htmltext.mk

/-- Modelled from the spec: the explicit downgrade (§4.2): `str()` on an
`htmltext` yields the raw underlying text as Plain Text. -/
def downgrade (h : htmltext) : String :=
  h.raw

/-- Modelled from the spec: the explicit trust-wrap (§4.2): the
`htmltext` constructor wraps Plain Text as Escaped Text without escaping
it. -/
def trustWrap (s : String) : htmltext :=
  ⟨s⟩

/-- A runtime value a captured bare-expression statement can evaluate to:
a string, an `htmltext`, an integer, or the `None` sentinel. -/
inductive Value where
  | vstr : String → Value
  | vhtml : htmltext → Value
  | vint : Int → Value
  | vnone : Value
deriving DecidableEq, Repr

/-- Modelled from the spec: ordinary stringification (`str()`) of a
captured value, as used by plain-mode capture. -/
def strOf : Value → String
  | .vstr s => s
  | .vhtml h => h.raw
  | .vint i => toString i
  | .vnone => "None"

/-- A statement of a loop body: a string-literal statement, a bare
expression that is the loop variable, or a bare expression with a fixed
value. -/
inductive LStmt where
  | llit : String → LStmt
  | loopVar : LStmt
  | lexpr : Value → LStmt
deriving Repr

/-- A template-body statement: a string-literal statement, a bare
expression statement (given with its evaluated value), or a
`for`-loop over `range n`. -/
inductive Stmt where
  | lit : String → Stmt
  | expr : Value → Stmt
  | forRange : Nat → List LStmt → Stmt
deriving Repr

/-- Modelled from the spec: plain-mode capture of one evaluated value
(§4.3): the `None` sentinel contributes nothing, any other value is
stringified. -/
def capturePlainVal : Value → String
  | .vnone => ""
  | v => strOf v

/-- Plain-mode capture of a loop-body statement at loop index `i`. -/
def capturePlainLStmt (i : Nat) : LStmt → String
  | .llit s => s
  | .loopVar => capturePlainVal (.vint i)
  | .lexpr v => capturePlainVal v

/-- Modelled from the spec: plain-mode capture of one statement (§4.3):
a literal contributes its text, a bare expression is captured via
`capturePlainVal`, a loop over `range n` captures its body at
`i = 0, …, n-1` in order. -/
def capturePlainStmt : Stmt → String
  | .lit s => s
  | .expr v => capturePlainVal v
  | .forRange n body =>
      String.join ((List.range n).map (fun i =>
        String.join (body.map (capturePlainLStmt i))))

/-- Modelled from the spec: a plain-mode template invocation (§4.3/§4.4):
captured fragments are concatenated in statement order into the final
string result. -/
def runPlain (body : List Stmt) : String :=
  String.join (body.map capturePlainStmt)

/-- Modelled from the spec: html-mode capture of one evaluated value
(§4.3): the `None` sentinel contributes nothing, an `htmltext` passes
through unchanged, anything else is stringified and escaped. -/
def captureHtmlVal : Value → String
  | .vnone => ""
  | .vhtml h => h.raw
  | v => escapeString (strOf v)

/-- Html-mode capture of a loop-body statement at loop index `i`. -/
def captureHtmlLStmt (i : Nat) : LStmt → String
  | .llit s => s
  | .loopVar => captureHtmlVal (.vint i)
  | .lexpr v => captureHtmlVal v

/-- Modelled from the spec: html-mode capture of one statement (§4.3):
a string literal becomes Escaped Text without being passed through the
Escape Function (the author is trusted), a bare expression is captured
via `captureHtmlVal`, a loop captures its body in order. -/
def captureHtmlStmt : Stmt → String
  | .lit s => s
  | .expr v => captureHtmlVal v
  | .forRange n body =>
      String.join ((List.range n).map (fun i =>
        String.join (body.map (captureHtmlLStmt i))))

/-- Modelled from the spec: an html-mode template invocation (§4.3/§4.4):
captured raw fragments are concatenated in statement order and the final
result is Escaped Text. -/
def runHtml (body : List Stmt) : htmltext :=
  ⟨String.join (body.map captureHtmlStmt)⟩

theorem escapeList_append (l1 l2 : List Char) :
    escapeList (l1 ++ l2) = escapeList l1 ++ escapeList l2 := by
  induction l1 with
  | nil => simp [escapeList]
  | cons c cs ih => simp [escapeList, ih, String.append_assoc]

theorem escapeString_append (s t : String) :
    escapeString (s ++ t) = escapeString s ++ escapeString t := by
  simp [escapeString, String.data_append, escapeList_append]

theorem escapeString_singleton (c : Char) :
    escapeString (String.singleton c) = escapeChar c := by
  simp [escapeString, String.singleton, escapeList]

/-- C1: the escape function is idempotent: applying `htmlescape` to the
Escaped Text produced by escaping any Plain Text string gives the same
result as escaping once, and `htmlescape` on any Escaped Text value is
the identity. -/
theorem escape_idempotent :
    (∀ x : String,
        htmlescape (.escaped (htmlescape (.plain x))) = htmlescape (.plain x)) ∧
    (∀ e : htmltext, htmlescape (.escaped e) = e) :=
  ⟨fun _ => rfl, fun _ => rfl⟩

/-- C2: concatenating an Escaped Text operand with a Plain Text operand
(in either order) escapes only the Plain Text operand and concatenates
raw contents into Escaped Text; concatenating two Escaped Text values
concatenates raw contents with no re-escaping, so an already-escaped
fragment such as `&amp;` is never altered further. -/
theorem add_escapes_plain_once :
    (∀ (l : htmltext) (p : String),
        addText (.escaped l) (.plain p) =
          .escaped ⟨l.raw ++ (htmlescape (.plain p)).raw⟩) ∧
    (∀ (l : htmltext) (p : String),
        addText (.plain p) (.escaped l) =
          .escaped ⟨(htmlescape (.plain p)).raw ++ l.raw⟩) ∧
    (∀ (a b : htmltext),
        addText (.escaped a) (.escaped b) = .escaped ⟨a.raw ++ b.raw⟩) ∧
    addText (.escaped ⟨"&amp;"⟩) (.escaped ⟨""⟩) = .escaped ⟨"&amp;"⟩ :=
  ⟨fun _ _ => rfl, fun _ _ => rfl, fun _ _ => rfl, rfl⟩

/-- C3: the escape function substitutes `&amp;`, `&lt;`, `&gt;` and
`&quot;` for the four markup-special characters, leaves every other
character unchanged, and preserves character order exactly: it is a
homomorphism for concatenation determined by its action on single
characters, and its result is Escaped Text. -/
theorem escape_substitution :
    (∀ s t : String, escapeString (s ++ t) = escapeString s ++ escapeString t) ∧
    escapeString "&" = "&amp;" ∧ escapeString "<" = "&lt;" ∧
    escapeString ">" = "&gt;" ∧ escapeString "\"" = "&quot;" ∧
    (∀ c : Char, c ≠ '&' → c ≠ '<' → c ≠ '>' → c ≠ '"' →
        escapeString (String.singleton c) = String.singleton c) ∧
    (∀ s : String, htmlescape (.plain s) = ⟨escapeString s⟩) := by
  refine ⟨escapeString_append, rfl, rfl, rfl, rfl, ?_, fun s => rfl⟩
  intro c h1 h2 h3 h4
  simp [escapeString_singleton, escapeChar, h1, h2, h3, h4]

/-- Witness for C3 at the concrete non-special character `a`. -/
theorem escape_substitution_witness :
    ('a' ≠ '&' ∧ 'a' ≠ '<' ∧ 'a' ≠ '>' ∧ 'a' ≠ '"') ∧
    escapeString (String.singleton 'a') = String.singleton 'a' :=
  ⟨by decide,
   escape_substitution.2.2.2.2.2.1 'a' (by decide) (by decide) (by decide) (by decide)⟩

/-- C4: the `%` formatting operator on an Escaped Text template escapes
each substituted argument before insertion (Escaped Text arguments pass
through unchanged) and yields Escaped Text; in particular
`Escaped "Hello %s" % "<b>"` has raw content `Hello &lt;b&gt;`. -/
theorem mod_escapes_args :
    modText ⟨"Hello %s"⟩ [.plain "<b>"] = some ⟨"Hello &lt;b&gt;"⟩ ∧
    (∀ a : TextVal,
        modText ⟨"Hello %s"⟩ [a] = some ⟨"Hello " ++ (htmlescape a).raw⟩) ∧
    (∀ h : htmltext, htmlescape (.escaped h) = h) := by
  refine ⟨rfl, ?_, fun h => rfl⟩
  intro a
  have hd : "Hello %s".data = ['H', 'e', 'l', 'l', 'o', ' ', '%', 's'] := rfl
  simp only [modText, hd, formatChars, Option.map_some, Option.map_map]
  simp [← String.append_assoc]
  congr 1

/-- C5: in an html-mode template, a statement that is solely a string
literal is captured as Escaped Text without escaping, so a body that is
just the literal `<b>` yields raw content `<b>`, while capturing a
variable holding the same string `<b>` yields raw content
`&lt;b&gt;`. -/
theorem literal_trust :
    runHtml [.lit "<b>"] = ⟨"<b>"⟩ ∧
    runHtml [.expr (.vstr "<b>")] = ⟨"&lt;b&gt;"⟩ :=
  ⟨rfl, rfl⟩

/-- C6: a captured bare-expression statement whose value is the `None`
sentinel contributes nothing, so a plain-mode template whose only body
statement evaluates to `None` returns the empty string. -/
theorem none_suppression :
    runPlain [.expr .vnone] = "" :=
  rfl

/-- C7: captured fragments are concatenated in statement order: a
plain-mode body `"a"; x; "b"` with `x` evaluating to `1` yields exactly
the string `a1b`. -/
theorem capture_ordering :
    runPlain [.lit "a", .expr (.vint 1), .lit "b"] = "a1b" :=
  rfl

/-- C8: the escape function fails with `InvalidInput` exactly when its
argument is neither a string nor Escaped Text; the error is returned to
the caller, and on every textual input the function succeeds. -/
theorem escape_invalid_input_iff :
    (∀ s : String, htmlescapeE (.str s) = .ok ⟨escapeString s⟩) ∧
    (∀ h : htmltext, htmlescapeE (.html h) = .ok h) ∧
    htmlescapeE .nontext = .error .invalidInput ∧
    (∀ a : EscArg, (∃ e, htmlescapeE a = .error e) ↔ a = .nontext) := by
  refine ⟨fun s => rfl, fun h => rfl, rfl, ?_⟩
  intro a
  cases a <;> simp [htmlescapeE]
  exact ⟨.invalidInput, trivial⟩

/-- C9: the explicit downgrade (obtaining the raw content as Plain Text)
followed by the explicit trust-wrap reproduces every Escaped Text value,
raw content unchanged. -/
theorem downgrade_trustWrap_roundtrip :
    ∀ e : htmltext,
      trustWrap (downgrade e) = e ∧ (trustWrap (downgrade e)).raw = e.raw :=
  fun _ => ⟨rfl, rfl⟩

/-- C10 counterexample: the plain-mode template whose body is a loop over
`range 5` capturing the loop variable and a space does not return
`"1 2 3 4 5 "` as the package documentation states for `numbers(5)`. -/
theorem numbers_doc_counterexample :
    runPlain [.forRange 5 [.loopVar, .llit " "]] ≠ "1 2 3 4 5 " := by
  decide

/-- C10 amended: under the capture rules, the plain-mode body
`for i in range(n): i; " "` returns, for `n = 5`, the string
`"0 1 2 3 4 "`, since `range 5` iterates `0` through `4`. -/
theorem numbers_range_five :
    runPlain [.forRange 5 [.loopVar, .llit " "]] = "0 1 2 3 4 " := by
  decide

end PTL
